import Mathlib

/-!
Verification development for the python-rako client protocol layer:
bridge discovery, the cached configuration fetcher, and the push
listener.

The repository ships the tests and examples of the `python_rako`
package; the package modules themselves (`bridge.py`, `helpers.py`)
are not part of this tree, so every operation below is modelled from
the specification's contracts (each such definition says so in its
doc comment) and checked against the behaviour the shipped tests
assert.

Concurrency model.  The specification's fetcher serializes every call
through one mutual-exclusion lock per `Bridge`, and the network
exchange happens while the lock is held (spec section 4.2, steps 1-4), so any
concurrent execution is observationally a sequential execution of the
callers' critical sections in lock-acquisition order.  `runCalls`
embeds exactly that: a list of calls executed in acquisition order,
threading the bridge state and a count of network exchanges performed
so far.  A call's `arrival` field records how many exchanges had been
performed when the caller was issued; a forced caller that acquires
the lock after a further exchange completed is precisely one that
waited on an in-flight refresh, and per the spec it reuses that
refresh's result instead of triggering its own exchange.
-/

namespace PythonRako

/-- Error taxonomy of the spec (section 7): discovery timeout, malformed
discovery reply, failed configuration fetch, and a receive attempted on a
torn-down listener. -/
inductive RakoError
  | DiscoveryTimeout
  | DiscoveryMalformed
  | FetchFailed
  | ListenerClosed
  deriving DecidableEq, Repr

/-- Modelled from the spec (section 3): immutable value produced by discovery
and consumed to construct a `Bridge`. -/
structure BridgeDescription where
  host : String
  port : Nat
  name : String
  mac : String
  deriving DecidableEq, Repr

/-- Modelled from the spec (section 3): the long-lived handle for one physical
device.  It owns the cache slot; the cached snapshot is the raw payload of
the most recently completed successful fetch (recency policy is "last
successful fetch wins", so no timestamp is needed).  The mutual-exclusion
lock of the spec is represented by the sequential interleaving of critical
sections in `runCalls`, not by a field. -/
structure Bridge where
  host : String
  port : Nat
  name : String
  mac : String
  cache : Option String
  deriving DecidableEq, Repr

/-- Modelled from the spec: constructing a `Bridge` directly from the fields
of a `BridgeDescription` (the `Bridge(**bridge_desc)` call of the example),
with an initially empty cache and no further initialization. -/
def mkBridge (d : BridgeDescription) : Bridge :=
  ⟨d.host, d.port, d.name, d.mac, none⟩

/-- Modelled from the spec (section 4.2, step 3): one network request-response
exchange against the bridge.  `session` is the caller-supplied network
session, modelled as an oracle from the index of the exchange to the payload
it yields (`none` models a network failure, which propagates as
`FetchFailed`).  On success the cached snapshot is replaced atomically with
the result; on failure the cache is left untouched.  Either way the exchange
counter advances by exactly one. -/
def performFetch (session : Nat → Option String) (b : Bridge) (exchanges : Nat) :
    Except RakoError String × Bridge × Nat :=
  match session exchanges with
  | some payload => (Except.ok payload, { b with cache := some payload }, exchanges + 1)
  | none => (Except.error RakoError.FetchFailed, b, exchanges + 1)

/-- Modelled from the spec (section 4.2): `getConfiguration` (the package's
`get_rako_xml`) as executed inside the bridge's lock.  `arrival` is the
number of exchanges that had been performed when this caller was issued;
`exchanges` is the count at lock acquisition.  If `forceRefresh` is false
and a cached snapshot exists, it is returned with no network touch.  A
forced caller for which `arrival < exchanges` is one that waited on a
refresh already in flight when it arrived, and per the spec it receives
that refresh's result (now in the cache) instead of triggering its own
exchange; otherwise, and whenever the cache is empty, exactly one exchange
is performed. -/
def getConfiguration (session : Nat → Option String) (forceRefresh : Bool)
    (arrival : Nat) (b : Bridge) (exchanges : Nat) :
    Except RakoError String × Bridge × Nat :=
  match b.cache with
  | none => performFetch session b exchanges
  | some p =>
    if forceRefresh then
      if arrival < exchanges then (Except.ok p, b, exchanges)
      else performFetch session b exchanges
    else (Except.ok p, b, exchanges)

/-- One logical caller of `getConfiguration`: the network session it passes,
its `forceRefresh` flag, and the exchange count observed when it was
issued. -/
structure CallSpec where
  session : Nat → Option String
  forceRefresh : Bool
  arrival : Nat

/-- Modelled from the spec (sections 4.2 and 5): a set of concurrent callers
funnelled through the bridge's lock.  Because the network exchange happens
while the lock is held, the concurrent execution is observationally the
sequential execution of the critical sections in lock-acquisition order,
which is the list order here. -/
def runCalls : List CallSpec → Bridge → Nat → List (Except RakoError String) × Bridge × Nat
  | [], b, e => ([], b, e)
  | c :: cs, b, e =>
    match getConfiguration c.session c.forceRefresh c.arrival b e with
    | (r, b', e') =>
      match runCalls cs b' e' with
      | (rs, b'', e'') => (r :: rs, b'', e'')

/-- Modelled from the spec (sections 3 and 4.3): a push-listener handle bound to
a local port, holding the datagrams received by the network stack (in
receipt order, decoded to text) that have not yet been surfaced, and a
closed flag.  `closed = true` is the terminal state. -/
structure Listener where
  port : Nat
  queue : List String
  closed : Bool
  deriving DecidableEq, Repr

/-- Outcome of one `nextMessage` call: a datagram was surfaced (carrying the
decoded message, or `none` when the datagram does not decode to a meaningful
message, together with the advanced listener), or the call suspends because
no datagram is available yet, or it fails because the listener is closed. -/
inductive RecvOutcome
  | surfaced (m : Option String) (l : Listener)
  | suspended
  | failed (e : RakoError)
  deriving DecidableEq, Repr

/-- Modelled from the spec (section 4.3): `nextMessage` (the package's
`next_pushed_message`).  On a closed listener it fails with
`ListenerClosed`; otherwise it surfaces the oldest queued datagram, decoded
by the external collaborator `decode` (which yields `none` for a datagram
that does not decode to a meaningful message), or suspends when no datagram
has arrived. -/
def nextMessage (decode : String → Option String) (l : Listener) : RecvOutcome :=
  if l.closed then RecvOutcome.failed RakoError.ListenerClosed
  else
    match l.queue with
    | [] => RecvOutcome.suspended
    | d :: rest => RecvOutcome.surfaced (decode d) { l with queue := rest }

/-- `n` successive `nextMessage` calls against a listener, collecting the
surfaced messages in order; stops early if a call suspends or fails. -/
def drain (decode : String → Option String) : Nat → Listener → List (Option String) × Listener
  | 0, l => ([], l)
  | n + 1, l =>
    match nextMessage decode l with
    | RecvOutcome.surfaced m l' =>
      match drain decode n l' with
      | (ms, l'') => (m :: ms, l'')
    | RecvOutcome.suspended => ([], l)
    | RecvOutcome.failed _ => ([], l)

/-- Modelled from the spec (sections 3 and 4.3): binding a listener on a port.
`ns` is the set of locally bound ports (as a list).  Binding fails if the
port is already bound, otherwise it yields a fresh open listener and marks
the port bound. -/
def bindListener (port : Nat) (ns : List Nat) : Option (Listener × List Nat) :=
  if port ∈ ns then none
  else some (⟨port, [], false⟩, port :: ns)

/-- Modelled from the spec (sections 4.3 and 7): owning-scope exit (normal,
cancelled, or on error) of a listener.  The listener enters the terminal
`Closed` state and its underlying socket is released, so its port is no
longer bound. -/
def releaseListener (l : Listener) (ns : List Nat) : Listener × List Nat :=
  ({ l with closed := true }, ns.filter fun q => q != l.port)

/-- Modelled from the spec (section 4.1): `discoverBridge`.  It binds a
temporary ephemeral receive port, transmits one broadcast datagram, and
awaits the first reply within a bounded wait: `reply = none` models no
reply arriving within the bound (`DiscoveryTimeout`); a reply that the
external collaborator `parse` cannot shape fails with
`DiscoveryMalformed`; otherwise the parsed `BridgeDescription` is
returned.  On every path the temporary port is released before the call
returns. -/
def discoverBridge (reply : Option String) (parse : String → Option BridgeDescription)
    (tempPort : Nat) (ns : List Nat) : Except RakoError BridgeDescription × List Nat :=
  let bound := tempPort :: ns
  let result : Except RakoError BridgeDescription :=
    match reply with
    | none => Except.error RakoError.DiscoveryTimeout
    | some r =>
      match parse r with
      | none => Except.error RakoError.DiscoveryMalformed
      | some d => Except.ok d
  (result, bound.filter fun q => q != tempPort)

/-- Any run of callers against a warm cache holding `p`, in which every
caller is either non-forced or arrived while the refresh that produced the
current state was in flight, returns the cached payload to every caller and
performs no exchange. -/
theorem runCalls_warm (cs : List CallSpec) (b : Bridge) (e : Nat) (p : String)
    (hb : b.cache = some p)
    (h : ∀ c ∈ cs, c.forceRefresh = false ∨ c.arrival < e) :
    runCalls cs b e = (cs.map fun _ => Except.ok p, b, e) := by
  induction cs with
  | nil => simp [runCalls]
  | cons c cs ih =>
    have hc := h c (List.mem_cons_self c cs)
    have hrest : ∀ c' ∈ cs, c'.forceRefresh = false ∨ c'.arrival < e :=
      fun c' hc' => h c' (List.mem_cons_of_mem c hc')
    rcases hc with hc | hc
    · simp [runCalls, getConfiguration, hb, hc, ih hrest]
    · rcases hf : c.forceRefresh with _ | _
      · simp [runCalls, getConfiguration, hb, hf, ih hrest]
      · simp [runCalls, getConfiguration, hb, hf, hc, ih hrest]

/-- Claim C1: single-flight.  For every N >= 1 callers invoking
`getConfiguration` concurrently (serialized by the bridge's lock) against a
cold cache, exactly one network exchange is performed in total and every
caller returns the payload produced by that one exchange. -/
theorem single_flight (n : Nat) (hn : 1 ≤ n) (session : Nat → Option String)
    (p : String) (hs : session 0 = some p) (b : Bridge) (hb : b.cache = none) :
    runCalls (List.replicate n ⟨session, false, 0⟩) b 0
      = (List.replicate n (Except.ok p), { b with cache := some p }, 1) := by
  obtain ⟨k, rfl⟩ : ∃ k, n = k + 1 := ⟨n - 1, (Nat.sub_add_cancel hn).symm⟩
  have hf : ∀ c ∈ List.replicate k (⟨session, false, 0⟩ : CallSpec),
      c.forceRefresh = false ∨ c.arrival < 1 := by
    intro c hc
    rw [List.eq_of_mem_replicate hc]
    exact Or.inl rfl
  have hwarm := runCalls_warm (List.replicate k ⟨session, false, 0⟩)
      { b with cache := some p } 1 p rfl hf
  rw [List.replicate_succ, List.replicate_succ]
  simp [runCalls, getConfiguration, hb, performFetch, hs, hwarm, List.map_replicate]

/-- Witness for C1: five concurrent cold-cache callers, one exchange, all
five returning the fetched payload. -/
theorem single_flight_witness :
    runCalls (List.replicate 5 ⟨fun _ => some "roomsXml", false, 0⟩)
        ⟨"192.168.1.100", 9761, "Test Bridge", "00:11:22:33:44:55", none⟩ 0
      = (List.replicate 5 (Except.ok "roomsXml"),
          ⟨"192.168.1.100", 9761, "Test Bridge", "00:11:22:33:44:55", some "roomsXml"⟩, 1) :=
  single_flight 5 (by decide) (fun _ => some "roomsXml") "roomsXml" rfl
    ⟨"192.168.1.100", 9761, "Test Bridge", "00:11:22:33:44:55", none⟩ rfl

/-- Claim C2: force-refresh coalescing.  One initial populating fetch
followed by M >= 1 concurrent forced callers (all issued after that first
exchange completed, hence `arrival = 1`) performs exactly 2 exchanges in
total: the first forced caller to acquire the lock performs the one shared
refresh, every later forced caller finds `arrival < exchanges` — it waited
on the in-flight refresh — and receives that refresh's result, and all M
forced callers return the same payload as each other. -/
theorem force_refresh_coalescing (m : Nat) (hm : 1 ≤ m) (session : Nat → Option String)
    (p₁ p₂ : String) (h0 : session 0 = some p₁) (h1 : session 1 = some p₂)
    (b : Bridge) (hb : b.cache = none) :
    runCalls (⟨session, false, 0⟩ :: List.replicate m ⟨session, true, 1⟩) b 0
      = (Except.ok p₁ :: List.replicate m (Except.ok p₂), { b with cache := some p₂ }, 2) := by
  obtain ⟨j, rfl⟩ : ∃ j, m = j + 1 := ⟨m - 1, (Nat.sub_add_cancel hm).symm⟩
  have hf : ∀ c ∈ List.replicate j (⟨session, true, 1⟩ : CallSpec),
      c.forceRefresh = false ∨ c.arrival < 2 := by
    intro c hc
    rw [List.eq_of_mem_replicate hc]
    exact Or.inr Nat.one_lt_two
  have hwarm := runCalls_warm (List.replicate j ⟨session, true, 1⟩)
      { b with cache := some p₂ } 2 p₂ rfl hf
  rw [List.replicate_succ, List.replicate_succ]
  simp [runCalls, getConfiguration, hb, performFetch, h0, h1, hwarm, List.map_replicate]

/-- Witness for C2: one populating fetch then three concurrent forced
callers; two exchanges in total and all three forced results identical. -/
theorem force_refresh_coalescing_witness :
    runCalls
        (⟨fun n => if n = 0 then some "room1" else some "room2", false, 0⟩ ::
          List.replicate 3 ⟨fun n => if n = 0 then some "room1" else some "room2", true, 1⟩)
        ⟨"192.168.1.100", 9761, "Test Bridge", "00:11:22:33:44:55", none⟩ 0
      = (Except.ok "room1" :: List.replicate 3 (Except.ok "room2"),
          ⟨"192.168.1.100", 9761, "Test Bridge", "00:11:22:33:44:55", some "room2"⟩, 2) :=
  force_refresh_coalescing 3 (by decide)
    (fun n => if n = 0 then some "room1" else some "room2") "room1" "room2" rfl rfl
    ⟨"192.168.1.100", 9761, "Test Bridge", "00:11:22:33:44:55", none⟩ rfl

/-- Claim C3: cache persistence on failure.  On a bridge holding a cached
snapshot, a forced fetch whose network exchange fails returns
`FetchFailed`, leaves the bridge — in particular its cached snapshot —
unchanged, and the lock is released (embedded here as: the subsequent call
runs), so a subsequent non-forced `getConfiguration` call returns the last
successfully fetched payload, not an error and not empty data. -/
theorem cache_persistence_on_failure (session sessionLater : Nat → Option String)
    (aLater : Nat) (b : Bridge) (e : Nat) (p : String)
    (hb : b.cache = some p) (hfail : session e = none) :
    getConfiguration session true e b e = (Except.error RakoError.FetchFailed, b, e + 1) ∧
    getConfiguration sessionLater false aLater b (e + 1) = (Except.ok p, b, e + 1) := by
  constructor
  · simp [getConfiguration, hb, performFetch, hfail]
  · simp [getConfiguration, hb]

/-- Witness for C3: a failing forced refresh against a concrete warm bridge,
then a successful non-forced read of the old payload. -/
theorem cache_persistence_on_failure_witness :
    getConfiguration (fun _ => none) true 1
        ⟨"192.168.1.100", 9761, "Test Bridge", "00:11:22:33:44:55", some "lastGood"⟩ 1
      = (Except.error RakoError.FetchFailed,
          ⟨"192.168.1.100", 9761, "Test Bridge", "00:11:22:33:44:55", some "lastGood"⟩, 2) ∧
    getConfiguration (fun _ => some "unused") false 0
        ⟨"192.168.1.100", 9761, "Test Bridge", "00:11:22:33:44:55", some "lastGood"⟩ 2
      = (Except.ok "lastGood",
          ⟨"192.168.1.100", 9761, "Test Bridge", "00:11:22:33:44:55", some "lastGood"⟩, 2) :=
  cache_persistence_on_failure (fun _ => none) (fun _ => some "unused") 0
    ⟨"192.168.1.100", 9761, "Test Bridge", "00:11:22:33:44:55", some "lastGood"⟩ 1 "lastGood"
    rfl rfl

/-- Claim C10: the network session is a per-call argument while the cache
(and the lock, embedded as the serialization in `runCalls`) lives on the
bridge: in a cold-cache burst of non-forced callers, each possibly passing
a different session object, one exchange is performed (through the first
caller's session) and every caller returns that same payload — the results
and final bridge state do not depend on the sessions the other callers
passed. -/
theorem session_independent_cache (cs : List CallSpec) (sessionFirst : Nat → Option String)
    (p : String) (hs : sessionFirst 0 = some p) (b : Bridge) (hb : b.cache = none)
    (hf : ∀ c ∈ cs, c.forceRefresh = false) :
    runCalls (⟨sessionFirst, false, 0⟩ :: cs) b 0
      = (Except.ok p :: (cs.map fun _ => Except.ok p), { b with cache := some p }, 1) := by
  have hwarm := runCalls_warm cs { b with cache := some p } 1 p rfl
      (fun c hc => Or.inl (hf c hc))
  simp [runCalls, getConfiguration, hb, performFetch, hs, hwarm]

/-- Witness for C10: three callers passing three different session objects;
one exchange through the first session, identical results for all. -/
theorem session_independent_cache_witness :
    runCalls
        (⟨fun _ => some "viaFirstSession", false, 0⟩ ::
          [⟨fun _ => some "viaSecondSession", false, 0⟩, ⟨fun _ => some "viaThirdSession", false, 0⟩])
        ⟨"192.168.1.100", 9761, "Test Bridge", "00:11:22:33:44:55", none⟩ 0
      = (Except.ok "viaFirstSession" ::
          [Except.ok "viaFirstSession", Except.ok "viaFirstSession"],
          ⟨"192.168.1.100", 9761, "Test Bridge", "00:11:22:33:44:55", some "viaFirstSession"⟩, 1) :=
  session_independent_cache
    [⟨fun _ => some "viaSecondSession", false, 0⟩, ⟨fun _ => some "viaThirdSession", false, 0⟩]
    (fun _ => some "viaFirstSession") "viaFirstSession" rfl
    ⟨"192.168.1.100", 9761, "Test Bridge", "00:11:22:33:44:55", none⟩ rfl
    (by
      intro c hc
      rcases List.mem_cons.mp hc with rfl | hc
      · rfl
      · rcases List.mem_cons.mp hc with rfl | hc
        · rfl
        · exact absurd hc (List.not_mem_nil c))

/-- Claim C4: a non-forced `getConfiguration` call on a bridge whose cache
holds a snapshot returns that snapshot's payload, performs no network
exchange, and leaves the bridge (in particular its cache) unchanged. -/
theorem warm_cache_read (session : Nat → Option String) (a : Nat) (b : Bridge)
    (e : Nat) (p : String) (hb : b.cache = some p) :
    getConfiguration session false a b e = (Except.ok p, b, e) := by
  simp [getConfiguration, hb]

/-- Witness for C4 at a concrete bridge and session. -/
theorem warm_cache_read_witness :
    getConfiguration (fun _ => some "fresh") false 0
        ⟨"192.168.1.100", 9761, "Test Bridge", "00:11:22:33:44:55", some "cached"⟩ 4
      = (Except.ok "cached",
          ⟨"192.168.1.100", 9761, "Test Bridge", "00:11:22:33:44:55", some "cached"⟩, 4) :=
  warm_cache_read (fun _ => some "fresh") 0
    ⟨"192.168.1.100", 9761, "Test Bridge", "00:11:22:33:44:55", some "cached"⟩ 4 "cached" rfl

/-- Claim C5: listener ordering.  For every sequence of datagrams received
in order by the network stack of a bound (open) listener, successive
`nextMessage` calls surface exactly the decodings of those datagrams in the
same order — no reordering, no deduplication, nothing invented and nothing
dropped by this layer — leaving the queue empty. -/
theorem listener_ordering (decode : String → Option String) (port : Nat) (q : List String) :
    drain decode q.length ⟨port, q, false⟩ = (q.map decode, ⟨port, [], false⟩) := by
  induction q with
  | nil => simp [drain]
  | cons d rest ih => simp [drain, nextMessage, ih]

/-- Claim C6: listener release.  After the owning scope of a listener exits,
the listener is in the terminal `Closed` state, any pending or subsequent
`nextMessage` call on it fails with `ListenerClosed`, and the underlying
socket is released, so the port is no longer bound and binding it again
succeeds. -/
theorem listener_release (decode : String → Option String) (l : Listener) (ns : List Nat) :
    (releaseListener l ns).1.closed = true ∧
    nextMessage decode (releaseListener l ns).1 = RecvOutcome.failed RakoError.ListenerClosed ∧
    l.port ∉ (releaseListener l ns).2 ∧
    (bindListener l.port (releaseListener l ns).2).isSome = true := by
  refine ⟨rfl, rfl, ?_, ?_⟩
  · simp [releaseListener, List.mem_filter]
  · simp [bindListener, releaseListener, List.mem_filter]

/-- Claim C7: discovery timeout.  When no reply datagram arrives within the
bounded wait, `discoverBridge` fails with `DiscoveryTimeout`, and the
temporary receive port it bound for the call is released on failure — the
call leaves no bound socket behind. -/
theorem discovery_timeout (parse : String → Option BridgeDescription)
    (tempPort : Nat) (ns : List Nat) :
    (discoverBridge none parse tempPort ns).1 = Except.error RakoError.DiscoveryTimeout ∧
    tempPort ∉ (discoverBridge none parse tempPort ns).2 := by
  refine ⟨rfl, ?_⟩
  simp [discoverBridge, List.mem_filter]

/-- Claim C8: a datagram that does not decode to a meaningful message is
surfaced by `nextMessage` as `none` rather than a push message; the result
is a surfaced outcome, not a failure, and the listener it returns is still
open with the remaining datagrams queued, so the stream continues and the
consumer filters the null result before use. -/
theorem null_message_continues (decode : String → Option String) (d : String)
    (rest : List String) (port : Nat) (hdm : decode d = none) :
    nextMessage decode ⟨port, d :: rest, false⟩ = RecvOutcome.surfaced none ⟨port, rest, false⟩ := by
  simp [nextMessage, hdm]

/-- Witness for C8: a decoder that recognises nothing surfaces `none` for a
concrete datagram and leaves the rest of the queue on an open listener. -/
theorem null_message_continues_witness :
    nextMessage (fun _ => none) ⟨9761, "noise" :: ["statusUpdate"], false⟩
      = RecvOutcome.surfaced none ⟨9761, ["statusUpdate"], false⟩ :=
  null_message_continues (fun _ => none) "noise" ["statusUpdate"] 9761 rfl

/-- Claim C9: a `BridgeDescription` unpacks directly as the constructor
arguments of a `Bridge`: the resulting handle carries the description's
host, port, name and mac, starts with an empty cache, and is immediately
usable — its first non-forced `getConfiguration` call behaves as a cold
fetch, performing one exchange and caching the payload, with no further
initialization. -/
theorem bridge_from_description (d : BridgeDescription) (session : Nat → Option String)
    (p : String) (hs : session 0 = some p) :
    (mkBridge d).host = d.host ∧ (mkBridge d).port = d.port ∧
    (mkBridge d).name = d.name ∧ (mkBridge d).mac = d.mac ∧
    (mkBridge d).cache = none ∧
    getConfiguration session false 0 (mkBridge d) 0
      = (Except.ok p, { mkBridge d with cache := some p }, 1) := by
  refine ⟨rfl, rfl, rfl, rfl, rfl, ?_⟩
  simp [getConfiguration, mkBridge, performFetch, hs]

/-- Witness for C9 at a concrete discovered description and session. -/
theorem bridge_from_description_witness :
    (mkBridge ⟨"10.0.0.2", 9761, "RAKOBRIDGE", "AA:BB:CC:DD:EE:FF"⟩).host = "10.0.0.2" ∧
    (mkBridge ⟨"10.0.0.2", 9761, "RAKOBRIDGE", "AA:BB:CC:DD:EE:FF"⟩).port = 9761 ∧
    (mkBridge ⟨"10.0.0.2", 9761, "RAKOBRIDGE", "AA:BB:CC:DD:EE:FF"⟩).name = "RAKOBRIDGE" ∧
    (mkBridge ⟨"10.0.0.2", 9761, "RAKOBRIDGE", "AA:BB:CC:DD:EE:FF"⟩).mac = "AA:BB:CC:DD:EE:FF" ∧
    (mkBridge ⟨"10.0.0.2", 9761, "RAKOBRIDGE", "AA:BB:CC:DD:EE:FF"⟩).cache = none ∧
    getConfiguration (fun _ => some "configXml") false 0
        (mkBridge ⟨"10.0.0.2", 9761, "RAKOBRIDGE", "AA:BB:CC:DD:EE:FF"⟩) 0
      = (Except.ok "configXml",
          { mkBridge ⟨"10.0.0.2", 9761, "RAKOBRIDGE", "AA:BB:CC:DD:EE:FF"⟩ with
              cache := some "configXml" }, 1) :=
  bridge_from_description ⟨"10.0.0.2", 9761, "RAKOBRIDGE", "AA:BB:CC:DD:EE:FF"⟩
    (fun _ => some "configXml") "configXml" rfl

end PythonRako
